import Mathlib

/-!
Shallow embedding of src/src/sat-data.c from gpredict (the functions
sat_data_read and sat_data_init), used to check the natural-language
specification of the TLE ingestion and epoch-initialization layer.

C doubles are modelled as rationals.  The collaborators that sat-data.c
calls but that are not part of this file (tle_lookup, fopen/fgets,
Get_Next_Tle_Set, select_ephemeris, SGP4, SDP4, Convert_Sat_State,
Magnitude, Julian_Date_of_Epoch, Calculate_Obs, Calculate_LatLonAlt,
get_orbit_type, g_ascii_strtod, acos) are modelled as oracle fields of an
environment structure, following the collaborator boundary of the
specification.  The two while loops that normalize the sub-satellite
longitude are embedded as recursive functions.
-/

namespace SatData

/-- Cartesian vector with a magnitude slot, after vector_t of the sgpsdp
library (header not under src); field w holds the magnitude. -/
structure Vec where
  x : ℚ
  y : ℚ
  z : ℚ
  w : ℚ
deriving DecidableEq

/-- Numeric fields of tle_t (the parsed two-line element set) that
sat-data.c reads or passes around; the header is not under src, the field
inventory follows the uses in sat-data.c. -/
structure TLE where
  epoch : ℚ
  xndt2o : ℚ
  xndd6o : ℚ
  bstar : ℚ
  xincl : ℚ
  xnodeo : ℚ
  eo : ℚ
  omegao : ℚ
  xmo : ℚ
  xno : ℚ
  catnr : Int
  elset : Int
  revnum : Int
deriving DecidableEq

/-- Geodetic position record, after geodetic_t of the sgpsdp library. -/
structure Geodetic where
  lat : ℚ
  lon : ℚ
  alt : ℚ
  theta : ℚ
deriving DecidableEq

/-- Topocentric observation record, after obs_set_t of the sgpsdp library. -/
structure ObsSet where
  az : ℚ
  el : ℚ
  range : ℚ
  range_rate : ℚ
deriving DecidableEq

/-- Observer location, after qth_t: geodetic latitude and longitude in
degrees and altitude in meters. -/
structure Qth where
  lat : ℚ
  lon : ℚ
  alt : ℚ
deriving DecidableEq

/-- Satellite state record, after sat_t; the fields are the ones sat-data.c
reads or writes. -/
structure Sat where
  tle : TLE
  flags : Nat
  pos : Vec
  vel : Vec
  jul_epoch : ℚ
  jul_utc : ℚ
  tsince : ℚ
  az : ℚ
  el : ℚ
  range : ℚ
  range_rate : ℚ
  ra : ℚ
  dec : ℚ
  ssplat : ℚ
  ssplon : ℚ
  alt : ℚ
  velo : ℚ
  ma : ℚ
  footprint : ℚ
  phase : ℚ
  aos : ℚ
  los : ℚ
  orbit : Int
  otype : Int
deriving DecidableEq

/-- Observable events emitted by the embedding of sat_data_read: clearing
the flag word, the call to select_ephemeris, and the SGP4-or-SDP4
propagation dispatch inside sat_data_init (deep = true means SDP4). -/
inductive Ev where
  | setFlagsZero
  | selectEphemeris
  | propagate (deep : Bool)
deriving DecidableEq

/-- Modelled from the spec: the deep-space ephemeris flag bit
DEEP_SPACE_EPHEM_FLAG of sgp4sdp4.h (not under src); the selector marks the
deep-space choice as a bit in the flag word of the state. -/
def DEEP_SPACE_EPHEM_FLAG : Nat := 64

/-- Environment of collaborators and external constants used by sat-data.c.
Every field models a function or constant that is declared outside this
repository slice (glib, the sgpsdp library, tle-lookup), at the boundary
described by the specification.  fileContents f gives the successive 3-line
groups read from the TLE file named f, or none when fopen fails;
parseCatnr models the g_ascii_strtod conversion of the extracted 5-byte
catalog-number substring followed by the cast to an unsigned integer. -/
structure Env where
  pi : ℚ
  pi_pos : 0 < pi
  xkmper : ℚ
  xmnpda : ℚ
  ae : ℚ
  tle_lookup : Int → Option String
  fileContents : String → Option (List (String × String × String))
  parseCatnr : String → Int
  get_next_tle_set : String × String × String → TLE → Int × TLE
  select_ephemeris : Sat → Sat
  sgp4 : Sat → ℚ → Sat
  sdp4 : Sat → ℚ → Sat
  convert_sat_state : Vec → Vec → Vec × Vec
  magnitude : Vec → ℚ
  julian_date_of_epoch : ℚ → ℚ
  calculate_obs : ℚ → Vec → Vec → Geodetic → ObsSet
  calculate_latlonalt : ℚ → Vec → Geodetic
  get_orbit_type : Sat → Int
  acos : ℚ → ℚ

/-- Modelled from the spec: the constant twopi of sgp4sdp4.h (not under
src), twice pi. -/
def twopi (e : Env) : ℚ := 2 * e.pi

/-- Modelled from the spec: the degrees-to-radians factor de2ra of
sgp4sdp4.h (not under src), pi over 180. -/
def de2ra (e : Env) : ℚ := e.pi / 180

/-- Modelled from the spec: the Degrees conversion of the sgpsdp math
utilities (not under src), radians divided by de2ra. -/
def Degrees (e : Env) (x : ℚ) : ℚ := x / de2ra e

/-- Embedding of the loop at src/src/sat-data.c lines 233-234:
while (sat_geodetic.lon < -pi) sat_geodetic.lon += twopi. -/
def wrapUp (p : ℚ) (hp : 0 < p) (lon : ℚ) : ℚ :=
  if h : lon < -p then wrapUp p hp (lon + 2 * p) else lon
termination_by (⌈(-p - lon) / (2 * p)⌉).toNat
decreasing_by
  have h2p : (0 : ℚ) < 2 * p := by linarith
  have key : (-p - (lon + 2 * p)) / (2 * p) = (-p - lon) / (2 * p) - 1 := by
    field_simp
    ring
  have hpos : 0 < ⌈(-p - lon) / (2 * p)⌉ := by
    apply Int.ceil_pos.mpr
    apply div_pos _ h2p
    linarith
  rw [key, Int.ceil_sub_one]
  omega

/-- Embedding of the loop at src/src/sat-data.c lines 236-237:
while (sat_geodetic.lon > pi) sat_geodetic.lon -= twopi. -/
def wrapDown (p : ℚ) (hp : 0 < p) (lon : ℚ) : ℚ :=
  if h : p < lon then wrapDown p hp (lon - 2 * p) else lon
termination_by (⌈(lon - p) / (2 * p)⌉).toNat
decreasing_by
  have h2p : (0 : ℚ) < 2 * p := by linarith
  have key : (lon - 2 * p - p) / (2 * p) = (lon - p) / (2 * p) - 1 := by
    field_simp
    ring
  have hpos : 0 < ⌈(lon - p) / (2 * p)⌉ := by
    apply Int.ceil_pos.mpr
    apply div_pos _ h2p
    linarith
  rw [key, Int.ceil_sub_one]
  omega

theorem wrapUp_eq_of_not_lt (p : ℚ) (hp : 0 < p) (lon : ℚ) (h : ¬ lon < -p) :
    wrapUp p hp lon = lon := by
  rw [wrapUp]
  exact dif_neg h

theorem wrapDown_eq_of_not_gt (p : ℚ) (hp : 0 < p) (lon : ℚ) (h : ¬ p < lon) :
    wrapDown p hp lon = lon := by
  rw [wrapDown]
  exact dif_neg h

theorem wrapUp_ge (p : ℚ) (hp : 0 < p) (lon : ℚ) : -p ≤ wrapUp p hp lon := by
  have h2p : (0 : ℚ) < 2 * p := by linarith
  generalize hn : (⌈(-p - lon) / (2 * p)⌉).toNat = n
  induction n generalizing lon with
  | zero =>
    have hle : ⌈(-p - lon) / (2 * p)⌉ ≤ 0 := by omega
    have hq : (-p - lon) / (2 * p) ≤ 0 := by exact_mod_cast Int.ceil_le.mp hle
    have : -p - lon ≤ 0 := by
      by_contra hc
      push_neg at hc
      have := div_pos hc h2p
      linarith
    rw [wrapUp_eq_of_not_lt p hp lon (by linarith)]
    linarith
  | succ n ih =>
    by_cases h : lon < -p
    · rw [wrapUp, dif_pos h]
      apply ih
      have key : (-p - (lon + 2 * p)) / (2 * p) = (-p - lon) / (2 * p) - 1 := by
        field_simp
        ring
      have hpos : 0 < ⌈(-p - lon) / (2 * p)⌉ := by
        apply Int.ceil_pos.mpr
        apply div_pos _ h2p
        linarith
      rw [key, Int.ceil_sub_one]
      omega
    · rw [wrapUp_eq_of_not_lt p hp lon h]
      linarith

theorem wrapDown_le (p : ℚ) (hp : 0 < p) (lon : ℚ) : wrapDown p hp lon ≤ p := by
  have h2p : (0 : ℚ) < 2 * p := by linarith
  generalize hn : (⌈(lon - p) / (2 * p)⌉).toNat = n
  induction n generalizing lon with
  | zero =>
    have hle : ⌈(lon - p) / (2 * p)⌉ ≤ 0 := by omega
    have hq : (lon - p) / (2 * p) ≤ 0 := by exact_mod_cast Int.ceil_le.mp hle
    have : lon - p ≤ 0 := by
      by_contra hc
      push_neg at hc
      have := div_pos hc h2p
      linarith
    rw [wrapDown_eq_of_not_gt p hp lon (by linarith)]
    linarith
  | succ n ih =>
    by_cases h : p < lon
    · rw [wrapDown, dif_pos h]
      apply ih
      have key : (lon - 2 * p - p) / (2 * p) = (lon - p) / (2 * p) - 1 := by
        field_simp
        ring
      have hpos : 0 < ⌈(lon - p) / (2 * p)⌉ := by
        apply Int.ceil_pos.mpr
        apply div_pos _ h2p
        linarith
      rw [key, Int.ceil_sub_one]
      omega
    · rw [wrapDown_eq_of_not_gt p hp lon h]
      linarith

theorem wrapDown_ge (p : ℚ) (hp : 0 < p) (lon : ℚ) (hlon : -p ≤ lon) :
    -p ≤ wrapDown p hp lon := by
  have h2p : (0 : ℚ) < 2 * p := by linarith
  generalize hn : (⌈(lon - p) / (2 * p)⌉).toNat = n
  induction n generalizing lon with
  | zero =>
    have hle : ⌈(lon - p) / (2 * p)⌉ ≤ 0 := by omega
    have hq : (lon - p) / (2 * p) ≤ 0 := by exact_mod_cast Int.ceil_le.mp hle
    have : lon - p ≤ 0 := by
      by_contra hc
      push_neg at hc
      have := div_pos hc h2p
      linarith
    rw [wrapDown_eq_of_not_gt p hp lon (by linarith)]
    linarith
  | succ n ih =>
    by_cases h : p < lon
    · rw [wrapDown, dif_pos h]
      apply ih
      · linarith
      · have key : (lon - 2 * p - p) / (2 * p) = (lon - p) / (2 * p) - 1 := by
          field_simp
          ring
        have hpos : 0 < ⌈(lon - p) / (2 * p)⌉ := by
          apply Int.ceil_pos.mpr
          apply div_pos _ h2p
          linarith
        rw [key, Int.ceil_sub_one]
        omega
    · rw [wrapDown_eq_of_not_gt p hp lon h]
      linarith

/-- Embedding of sat_data_init (src/src/sat-data.c lines 191-256).  The
returned list records the propagation event (the SGP4-or-SDP4 dispatch at
tsince = 0).  The qth argument models the optional observer pointer, none
standing for NULL. -/
def sat_data_init (e : Env) (sat : Sat) (qth : Option Qth) : Sat × List Ev :=
  let jul_utc := e.julian_date_of_epoch sat.tle.epoch
  let sat1 : Sat := { sat with jul_epoch := jul_utc }
  let obs_geodetic : Geodetic :=
    match qth with
    | some q => { lon := q.lon * de2ra e, lat := q.lat * de2ra e,
                  alt := q.alt / 1000, theta := 0 }
    | none => { lon := 0, lat := 0, alt := 0, theta := 0 }
  let deep : Bool := Nat.land sat1.flags DEEP_SPACE_EPHEM_FLAG != 0
  let sat2 : Sat := if deep then e.sdp4 sat1 0 else e.sgp4 sat1 0
  let pv := e.convert_sat_state sat2.pos sat2.vel
  let sat3 : Sat := { sat2 with pos := pv.1, vel := pv.2 }
  let sat4 : Sat := { sat3 with vel := { sat3.vel with w := e.magnitude sat3.vel } }
  let sat5 : Sat := { sat4 with velo := sat4.vel.w }
  let obs_set := e.calculate_obs jul_utc sat5.pos sat5.vel obs_geodetic
  let sat_geodetic := e.calculate_latlonalt jul_utc sat5.pos
  let lonN : ℚ := wrapDown e.pi e.pi_pos (wrapUp e.pi e.pi_pos sat_geodetic.lon)
  let sat6 : Sat := { sat5 with
    az := Degrees e obs_set.az
    el := Degrees e obs_set.el
    range := obs_set.range
    range_rate := obs_set.range_rate
    ssplat := Degrees e sat_geodetic.lat
    ssplon := Degrees e lonN
    alt := sat_geodetic.alt }
  let sat7 : Sat := { sat6 with ma := Degrees e sat6.phase }
  let sat8 : Sat := { sat7 with ma := sat7.ma * (256 / 360) }
  let sat9 : Sat := { sat8 with
    footprint := 2 * e.xkmper * e.acos (e.xkmper / sat8.pos.w) }
  let age : ℚ := 0
  let sat10 : Sat := { sat9 with
    orbit := ⌊(sat9.tle.xno * e.xmnpda / twopi e + age * sat9.tle.bstar * e.ae) * age
              + sat9.tle.xmo / twopi e⌋ + sat9.tle.revnum - 1 }
  let sat11 : Sat := { sat10 with otype := e.get_orbit_type sat10 }
  (sat11, [Ev.propagate deep])

/-- Extraction of the catalog-number substring at src/src/sat-data.c lines
97-100: bytes 2 to 6 of the second line of the group (columns 3-7). -/
def extractCat (line : String) : String :=
  String.mk ((line.toList.drop 2).take 5)

/-- Embedding of the scan loop of sat_data_read (src/src/sat-data.c lines
90-165): walk the 3-line groups of the file; on the first group whose
extracted catalog number matches, validate with Get_Next_Tle_Set; on
failure record error code 2, on success clear the flag word, select the
ephemeris, zero the variable fields and initialize at epoch. -/
def readLoop (e : Env) (catnum : Int) (sat : Sat) :
    List (String × String × String) → Int × Sat × List Ev
  | [] => (0, sat, [])
  | g :: rest =>
    let catnr := e.parseCatnr (extractCat g.2.1)
    if catnr = catnum then
      let r := e.get_next_tle_set g sat.tle
      let satT : Sat := { sat with tle := r.2 }
      if r.1 ≠ 1 then
        (2, satT, [])
      else
        let satF : Sat := { satT with flags := 0 }
        let satS : Sat := e.select_ephemeris satF
        let satZ : Sat := { satS with
          jul_utc := 0, tsince := 0, az := 0, el := 0, range := 0,
          range_rate := 0, ra := 0, dec := 0, ssplat := 0, ssplon := 0,
          alt := 0, velo := 0, ma := 0, footprint := 0, phase := 0,
          aos := 0, los := 0 }
        let ri := sat_data_init e satZ none
        (0, ri.1, Ev.setFlagsZero :: Ev.selectEphemeris :: ri.2)
    else
      readLoop e catnum sat rest

/-- Embedding of sat_data_read (src/src/sat-data.c lines 55-181): look up
the file holding the catalog number (return code 1 when absent), open it
(return code 3 when unreadable), and scan its 3-line groups. -/
def sat_data_read (e : Env) (catnum : Int) (sat : Sat) : Int × Sat × List Ev :=
  match e.tle_lookup catnum with
  | none => (1, sat, [])
  | some filename =>
    match e.fileContents filename with
    | none => (3, sat, [])
    | some groups => readLoop e catnum sat groups

/-- All-zero element set used as a base point for concrete checks. -/
def tle0 : TLE :=
  { epoch := 0, xndt2o := 0, xndd6o := 0, bstar := 0, xincl := 0,
    xnodeo := 0, eo := 0, omegao := 0, xmo := 0, xno := 0,
    catnr := 0, elset := 0, revnum := 0 }

/-- Zero vector. -/
def vec0 : Vec := { x := 0, y := 0, z := 0, w := 0 }

/-- All-zero satellite state used as a base point for concrete checks. -/
def sat0 : Sat :=
  { tle := tle0, flags := 0, pos := vec0, vel := vec0, jul_epoch := 0,
    jul_utc := 0, tsince := 0, az := 0, el := 0, range := 0,
    range_rate := 0, ra := 0, dec := 0, ssplat := 0, ssplon := 0,
    alt := 0, velo := 0, ma := 0, footprint := 0, phase := 0,
    aos := 0, los := 0, orbit := 0, otype := 0 }

/-- Sample 3-line group of a TLE file. -/
def group0 : String × String × String := ("SAT", "1 00001U", "2 00001")

/-- Concrete environment used for witnesses: every collaborator is a simple
total function, the lookup finds catalog number 1 in the single group of
one file, and validation succeeds. -/
def envBase : Env :=
  { pi := 3, pi_pos := by norm_num, xkmper := 6378, xmnpda := 1440, ae := 1,
    tle_lookup := fun _ => some "amateur.tle",
    fileContents := fun _ => some [group0],
    parseCatnr := fun _ => 1,
    get_next_tle_set := fun _ t => (1, t),
    select_ephemeris := fun s => s,
    sgp4 := fun s _ => s,
    sdp4 := fun s _ => s,
    convert_sat_state := fun p v => (p, v),
    magnitude := fun v => v.w,
    julian_date_of_epoch := fun x => x,
    calculate_obs := fun _ _ _ _ => { az := 0, el := 0, range := 0, range_rate := 0 },
    calculate_latlonalt := fun _ _ => { lat := 0, lon := 0, alt := 0, theta := 0 },
    get_orbit_type := fun _ => 0,
    acos := fun _ => 0 }

theorem sat_data_init_trace (e : Env) (s : Sat) (qth : Option Qth) :
    (sat_data_init e s qth).2
      = [Ev.propagate (Nat.land s.flags DEEP_SPACE_EPHEM_FLAG != 0)] := by
  simp only [sat_data_init]

theorem sat_data_init_orbit (e : Env) (s : Sat) (qth : Option Qth) :
    ((sat_data_init e s qth).1).orbit
      = ⌊((sat_data_init e s qth).1).tle.xmo / twopi e⌋
        + ((sat_data_init e s qth).1).tle.revnum - 1 := by
  simp only [sat_data_init]
  simp

theorem sat_data_init_qth_zero (e : Env) (s : Sat) :
    sat_data_init e s none = sat_data_init e s (some { lat := 0, lon := 0, alt := 0 }) := by
  simp only [sat_data_init]
  norm_num

theorem degrees_wrap_bounds (e : Env) (lon : ℚ) :
    -180 ≤ Degrees e (wrapDown e.pi e.pi_pos (wrapUp e.pi e.pi_pos lon))
      ∧ Degrees e (wrapDown e.pi e.pi_pos (wrapUp e.pi e.pi_pos lon)) ≤ 180 := by
  have hp := e.pi_pos
  have hd : (0 : ℚ) < e.pi / 180 := by linarith
  have h1 : -e.pi ≤ wrapUp e.pi e.pi_pos lon := wrapUp_ge _ _ _
  have h2 : -e.pi ≤ wrapDown e.pi e.pi_pos (wrapUp e.pi e.pi_pos lon) :=
    wrapDown_ge _ _ _ h1
  have h3 : wrapDown e.pi e.pi_pos (wrapUp e.pi e.pi_pos lon) ≤ e.pi :=
    wrapDown_le _ _ _
  unfold Degrees de2ra
  constructor
  · rw [le_div_iff₀ hd]
    linarith
  · rw [div_le_iff₀ hd]
    linarith

theorem wrapUp_shift (p : ℚ) (hp : 0 < p) (lon : ℚ) :
    ∃ k : ℤ, wrapUp p hp lon = lon + k * (2 * p) := by
  have h2p : (0 : ℚ) < 2 * p := by linarith
  generalize hn : (⌈(-p - lon) / (2 * p)⌉).toNat = n
  induction n generalizing lon with
  | zero =>
    have hle : ⌈(-p - lon) / (2 * p)⌉ ≤ 0 := by omega
    have hq : (-p - lon) / (2 * p) ≤ 0 := by exact_mod_cast Int.ceil_le.mp hle
    have : -p - lon ≤ 0 := by
      by_contra hc
      push_neg at hc
      have := div_pos hc h2p
      linarith
    rw [wrapUp_eq_of_not_lt p hp lon (by linarith)]
    exact ⟨0, by ring⟩
  | succ n ih =>
    by_cases h : lon < -p
    · rw [wrapUp, dif_pos h]
      have hm : (⌈(-p - (lon + 2 * p)) / (2 * p)⌉).toNat = n := by
        have key : (-p - (lon + 2 * p)) / (2 * p) = (-p - lon) / (2 * p) - 1 := by
          field_simp
          ring
        have hpos : 0 < ⌈(-p - lon) / (2 * p)⌉ := by
          apply Int.ceil_pos.mpr
          apply div_pos _ h2p
          linarith
        rw [key, Int.ceil_sub_one]
        omega
      obtain ⟨k, hk⟩ := ih (lon + 2 * p) hm
      exact ⟨k + 1, by rw [hk]; push_cast; ring⟩
    · rw [wrapUp_eq_of_not_lt p hp lon h]
      exact ⟨0, by ring⟩

theorem wrapDown_shift (p : ℚ) (hp : 0 < p) (lon : ℚ) :
    ∃ k : ℤ, wrapDown p hp lon = lon + k * (2 * p) := by
  have h2p : (0 : ℚ) < 2 * p := by linarith
  generalize hn : (⌈(lon - p) / (2 * p)⌉).toNat = n
  induction n generalizing lon with
  | zero =>
    have hle : ⌈(lon - p) / (2 * p)⌉ ≤ 0 := by omega
    have hq : (lon - p) / (2 * p) ≤ 0 := by exact_mod_cast Int.ceil_le.mp hle
    have : lon - p ≤ 0 := by
      by_contra hc
      push_neg at hc
      have := div_pos hc h2p
      linarith
    rw [wrapDown_eq_of_not_gt p hp lon (by linarith)]
    exact ⟨0, by ring⟩
  | succ n ih =>
    by_cases h : p < lon
    · rw [wrapDown, dif_pos h]
      have hm : (⌈(lon - 2 * p - p) / (2 * p)⌉).toNat = n := by
        have key : (lon - 2 * p - p) / (2 * p) = (lon - p) / (2 * p) - 1 := by
          field_simp
          ring
        have hpos : 0 < ⌈(lon - p) / (2 * p)⌉ := by
          apply Int.ceil_pos.mpr
          apply div_pos _ h2p
          linarith
        rw [key, Int.ceil_sub_one]
        omega
      obtain ⟨k, hk⟩ := ih (lon - 2 * p) hm
      exact ⟨k - 1, by rw [hk]; push_cast; ring⟩
    · rw [wrapDown_eq_of_not_gt p hp lon h]
      exact ⟨0, by ring⟩

theorem readLoop_trace_shape (e : Env) (catnum : Int) (s : Sat)
    (gs : List (String × String × String)) :
    (readLoop e catnum s gs).2.2 = []
      ∨ ∃ b, (readLoop e catnum s gs).2.2
          = [Ev.setFlagsZero, Ev.selectEphemeris, Ev.propagate b] := by
  induction gs with
  | nil => left; rfl
  | cons g rest ih =>
    simp only [readLoop]
    by_cases hm : e.parseCatnr (extractCat g.2.1) = catnum
    · rw [if_pos hm]
      by_cases hv : (e.get_next_tle_set g s.tle).1 ≠ 1
      · rw [if_pos hv]
        left
        rfl
      · rw [if_neg hv]
        right
        rw [sat_data_init_trace]
        exact ⟨_, rfl⟩
    · rw [if_neg hm]
      exact ih

theorem sat_data_read_trace_shape (e : Env) (catnum : Int) (s : Sat) :
    (sat_data_read e catnum s).2.2 = []
      ∨ ∃ b, (sat_data_read e catnum s).2.2
          = [Ev.setFlagsZero, Ev.selectEphemeris, Ev.propagate b] := by
  unfold sat_data_read
  rcases e.tle_lookup catnum with _ | filename
  · left; rfl
  · dsimp only
    rcases e.fileContents filename with _ | groups
    · left; rfl
    · exact readLoop_trace_shape e catnum s groups

theorem order_in_triple (t : List Ev) (b' : Bool)
    (ht : t = [Ev.setFlagsZero, Ev.selectEphemeris, Ev.propagate b'])
    (i : ℕ) (b : Bool) (h : t.get? i = some (Ev.propagate b)) :
    ∃ j k : ℕ, j < k ∧ k < i
      ∧ t.get? j = some Ev.setFlagsZero
      ∧ t.get? k = some Ev.selectEphemeris := by
  subst ht
  match i with
  | 0 => simp [List.get?] at h
  | 1 => simp [List.get?] at h
  | 2 => exact ⟨0, 1, by omega, by omega, rfl, rfl⟩
  | n + 3 => simp [List.get?] at h

theorem readLoop_no_match (e : Env) (catnum : Int) (s : Sat)
    (gs : List (String × String × String))
    (hnone : ∀ g ∈ gs, e.parseCatnr (extractCat g.2.1) ≠ catnum) :
    readLoop e catnum s gs = (0, s, []) := by
  induction gs with
  | nil => rfl
  | cons g rest ih =>
    simp only [readLoop]
    rw [if_neg (hnone g (List.mem_cons_self g rest))]
    exact ih fun g' hg' => hnone g' (List.mem_cons_of_mem g hg')

theorem readLoop_found_invalid (e : Env) (catnum : Int) (s : Sat)
    (pre : List (String × String × String)) (g : String × String × String)
    (rest : List (String × String × String))
    (hpre : ∀ g' ∈ pre, e.parseCatnr (extractCat g'.2.1) ≠ catnum)
    (hg : e.parseCatnr (extractCat g.2.1) = catnum)
    (hv : (e.get_next_tle_set g s.tle).1 ≠ 1) :
    readLoop e catnum s (pre ++ g :: rest)
      = (2, { s with tle := (e.get_next_tle_set g s.tle).2 }, []) := by
  induction pre with
  | nil =>
    simp only [List.nil_append, readLoop]
    rw [if_pos hg, if_pos hv]
  | cons p ps ih =>
    simp only [List.cons_append, readLoop]
    rw [if_neg (hpre p (List.mem_cons_self p ps))]
    exact ih fun g' hg' => hpre g' (List.mem_cons_of_mem p hg')

/-- Orbit-number formula written from the words of the specification note:
floor of xmo over 2 pi, plus the epoch revolution number, minus one. -/
def spec_orbit_number (e : Env) (t : TLE) : Int :=
  ⌊t.xmo / twopi e⌋ + t.revnum - 1

/-- Environment for the C2 failing input: the lookup service names a file
and the file opens, but its only group carries catalog number 25544. -/
def env2 : Env := { envBase with parseCatnr := fun _ => 25544 }

/-- Environment for the C3 counterexample: the topocentric computation
returns a nonzero azimuth. -/
def env3 : Env :=
  { envBase with
    calculate_obs := fun _ _ _ _ => { az := 1, el := 2, range := 3, range_rate := 4 } }

/-- Environment for the C5 counterexample: the geodetic inversion returns a
longitude of exactly minus pi radians (pi is 3 in this environment). -/
def env5 : Env :=
  { envBase with
    calculate_latlonalt := fun _ _ => { lat := 0, lon := -3, alt := 0, theta := 0 } }

/-- Environment for the C8 witness: validation fails with code 0. -/
def env8 : Env := { envBase with get_next_tle_set := fun _ t => (0, t) }

/-- Environment for the C9 witness: the extracted catalog number of the
only group parses to 2, never matching the requested number 1. -/
def env9 : Env := { envBase with parseCatnr := fun _ => 2 }

/-- State for the C6 counterexample: mean anomaly of half a revolution and
epoch revolution number 0. -/
def sat6c : Sat := { sat0 with tle := { tle0 with xmo := 3, revnum := 0 } }

/-- State for the C6 witness: mean anomaly 1 radian, epoch revolution
number 7. -/
def sat6w : Sat := { sat0 with tle := { tle0 with xmo := 1, revnum := 7 } }

/-- Claim C1: whenever sat_data_read obtains a TLE record that passes
validation, it sets the flag word to 0 and calls select_ephemeris before
any propagation: in the event trace of sat_data_read, every propagation
event (the SGP4-or-SDP4 dispatch of sat_data_init at tsince = 0) is
preceded by the flags-cleared event and, after it, the ephemeris-selection
event. -/
theorem claim_c1_select_before_propagation (e : Env) (catnum : Int) (s : Sat)
    (i : ℕ) (b : Bool)
    (h : ((sat_data_read e catnum s).2.2).get? i = some (Ev.propagate b)) :
    ∃ j k : ℕ, j < k ∧ k < i
      ∧ ((sat_data_read e catnum s).2.2).get? j = some Ev.setFlagsZero
      ∧ ((sat_data_read e catnum s).2.2).get? k = some Ev.selectEphemeris := by
  rcases sat_data_read_trace_shape e catnum s with h0 | ⟨b', h0⟩
  · rw [h0] at h
    simp [List.get?] at h
  · exact order_in_triple _ b' h0 i b h

/-- Claim C1 witness: in the base environment the trace of a successful
read is exactly flags-cleared, ephemeris-selected, propagate, so the
ordering theorem applies at position 2. -/
theorem claim_c1_witness :
    ∃ j k : ℕ, j < k ∧ k < 2
      ∧ ((sat_data_read envBase 1 sat0).2.2).get? j = some Ev.setFlagsZero
      ∧ ((sat_data_read envBase 1 sat0).2.2).get? k = some Ev.selectEphemeris :=
  claim_c1_select_before_propagation envBase 1 sat0 2 false rfl

/-- Claim C2, evaluated at the failing input: the lookup service names a
file, the file opens, no group in it carries the requested catalog number
57, and sat_data_read returns 0 — the code the claim and the function
documentation reserve for success — with the state untouched and no
element set loaded or initialized. -/
theorem claim_c2_returns_zero_without_success :
    sat_data_read env2 57 sat0 = (0, sat0, []) := rfl

/-- Claim C3 counterexample: with no observer, the azimuth field is filled
with the nonzero topocentric azimuth computed against the substituted
observer at geodetic (0,0,0) — identical to a real observer there — so it
is reported exactly like a valid observer-relative value. -/
theorem claim_c3_counterexample :
    ((sat_data_init env3 sat0 none).1).az = 60
    ∧ ((sat_data_init env3 sat0 none).1).az ≠ 0
    ∧ ((sat_data_init env3 sat0 none).1).az
        = ((sat_data_init env3 sat0 (some { lat := 0, lon := 0, alt := 0 })).1).az := by
  have h1 : ((sat_data_init env3 sat0 none).1).az = Degrees env3 1 := rfl
  refine ⟨?_, ?_, ?_⟩
  · rw [h1]
    norm_num [Degrees, de2ra, env3, envBase]
  · rw [h1]
    norm_num [Degrees, de2ra, env3, envBase]
  · exact congrArg (fun t => (t.1).az) (sat_data_init_qth_zero env3 sat0)

/-- Claim C3 (amended): with sat_data_init called without an observer, the
azimuth, elevation, range and range-rate fields are populated with the
topocentric values for a substitute observer at geodetic (0,0,0), exactly
as for a real observer at that location, with no marking that would make
them distinguishable from valid observer-relative values. -/
theorem claim_c3_amended_dummy_observer_values (e : Env) (s : Sat) :
    ((sat_data_init e s none).1).az
        = ((sat_data_init e s (some { lat := 0, lon := 0, alt := 0 })).1).az
    ∧ ((sat_data_init e s none).1).el
        = ((sat_data_init e s (some { lat := 0, lon := 0, alt := 0 })).1).el
    ∧ ((sat_data_init e s none).1).range
        = ((sat_data_init e s (some { lat := 0, lon := 0, alt := 0 })).1).range
    ∧ ((sat_data_init e s none).1).range_rate
        = ((sat_data_init e s (some { lat := 0, lon := 0, alt := 0 })).1).range_rate := by
  rw [sat_data_init_qth_zero e s]
  exact ⟨rfl, rfl, rfl, rfl⟩

/-- Claim C4: in every state produced by sat_data_init, the stored ma field
equals the phase angle of the state converted to degrees and scaled by
256/360. -/
theorem claim_c4_ma_scaling (e : Env) (s : Sat) (qth : Option Qth) :
    ((sat_data_init e s qth).1).ma
      = Degrees e ((sat_data_init e s qth).1).phase * (256 / 360) := by
  simp only [sat_data_init]

/-- Claim C5 counterexample: when the geodetic inversion returns a raw
longitude of exactly minus pi radians, the normalization loops leave it
unchanged and the stored ssplon is exactly -180 degrees, outside the
claimed half-open interval. -/
theorem claim_c5_counterexample :
    ((sat_data_init env5 sat0 none).1).ssplon = -180
    ∧ ¬ (-180 < ((sat_data_init env5 sat0 none).1).ssplon
          ∧ ((sat_data_init env5 sat0 none).1).ssplon ≤ 180) := by
  have hx : ((sat_data_init env5 sat0 none).1).ssplon
      = Degrees env5 (wrapDown env5.pi env5.pi_pos (wrapUp env5.pi env5.pi_pos (-3))) :=
    rfl
  have hu : wrapUp env5.pi env5.pi_pos (-3) = -3 :=
    wrapUp_eq_of_not_lt _ _ _ (by norm_num [env5, envBase])
  have hd : wrapDown env5.pi env5.pi_pos (-3) = -3 :=
    wrapDown_eq_of_not_gt _ _ _ (by norm_num [env5, envBase])
  have hv : ((sat_data_init env5 sat0 none).1).ssplon = -180 := by
    rw [hx, hu, hd]
    norm_num [Degrees, de2ra, env5, envBase]
  refine ⟨hv, ?_⟩
  rw [hv]
  simp

/-- Claim C5 (amended): the stored sub-satellite longitude lies in the
closed interval from -180 to 180 degrees; the endpoint -180 is attained
when the raw longitude is exactly minus pi shifted by a whole number of
turns (the shifting by multiples of 2 pi is proved separately in
wrapUp_shift and wrapDown_shift). -/
theorem claim_c5_amended_closed_interval (e : Env) (s : Sat) (qth : Option Qth) :
    -180 ≤ ((sat_data_init e s qth).1).ssplon
      ∧ ((sat_data_init e s qth).1).ssplon ≤ 180 := by
  simp only [sat_data_init]
  exact degrees_wrap_bounds e _

/-- Claim C6 counterexample: with a mean anomaly of half a revolution and
epoch revolution number 0, the stored orbit number is -1: it is both
negative and different from the epoch revolution number plus the elapsed
whole revolutions since epoch (zero at epoch). -/
theorem claim_c6_counterexample :
    ((sat_data_init envBase sat6c none).1).orbit = -1
    ∧ ((sat_data_init envBase sat6c none).1).tle.revnum = 0
    ∧ ((sat_data_init envBase sat6c none).1).orbit < 0 := by
  have hxmo : ((sat_data_init envBase sat6c none).1).tle.xmo = 3 := rfl
  have hrev : ((sat_data_init envBase sat6c none).1).tle.revnum = 0 := rfl
  have h6 : twopi envBase = 6 := by norm_num [twopi, envBase]
  have hfloor : ⌊((sat_data_init envBase sat6c none).1).tle.xmo / twopi envBase⌋ = 0 := by
    rw [hxmo, h6]
    apply Int.floor_eq_zero_iff.mpr
    constructor <;> norm_num
  have hmain : ((sat_data_init envBase sat6c none).1).orbit = -1 := by
    rw [sat_data_init_orbit, hfloor, hrev]
    norm_num
  exact ⟨hmain, hrev, by rw [hmain]; norm_num⟩

/-- Claim C6 (amended): the stored orbit number is the floor of xmo over
2 pi, plus the epoch revolution number, minus one; for a mean anomaly in
[0, 2 pi) this is the epoch revolution number minus one, and it can be
negative (it is -1 when the epoch revolution number is 0). -/
theorem claim_c6_amended_orbit_value (e : Env) (s : Sat) (qth : Option Qth)
    (h0 : 0 ≤ ((sat_data_init e s qth).1).tle.xmo)
    (h1 : ((sat_data_init e s qth).1).tle.xmo < twopi e) :
    ((sat_data_init e s qth).1).orbit
      = ((sat_data_init e s qth).1).tle.revnum - 1 := by
  rw [sat_data_init_orbit]
  have hp : (0 : ℚ) < twopi e := by
    have := e.pi_pos
    unfold twopi
    linarith
  have hz : ⌊((sat_data_init e s qth).1).tle.xmo / twopi e⌋ = 0 := by
    apply Int.floor_eq_zero_iff.mpr
    constructor
    · exact div_nonneg h0 hp.le
    · exact (div_lt_one hp).mpr h1
  rw [hz]
  ring

/-- Claim C6 witness: with mean anomaly 1 radian and epoch revolution
number 7, the amended orbit-number equation holds at a concrete input. -/
theorem claim_c6_witness :
    ((sat_data_init envBase sat6w none).1).orbit
      = ((sat_data_init envBase sat6w none).1).tle.revnum - 1 :=
  claim_c6_amended_orbit_value envBase sat6w none
    (by rw [show ((sat_data_init envBase sat6w none).1).tle.xmo = 1 from rfl]
        norm_num)
    (by rw [show ((sat_data_init envBase sat6w none).1).tle.xmo = 1 from rfl]
        norm_num [twopi, envBase])

/-- Claim C7: because age is set to 0 immediately before use, the stored
orbit number coincides exactly with the simplified formula floor of xmo
over 2 pi plus the epoch revolution number minus one: the mean-motion and
bstar drag-correction product term contributes nothing. -/
theorem claim_c7_age_term_dead (e : Env) (s : Sat) (qth : Option Qth) :
    ((sat_data_init e s qth).1).orbit
      = spec_orbit_number e ((sat_data_init e s qth).1).tle := by
  rw [spec_orbit_number]
  exact sat_data_init_orbit e s qth

/-- Claim C8: when the matched record fails validation, sat_data_read
stops with return code 2, the state keeps every field except what the
validator itself wrote into the element-set slot, and no event (flag
clearing, ephemeris selection or propagation) is emitted. -/
theorem claim_c8_invalid_record_frame (e : Env) (catnum : Int) (s : Sat)
    (filename : String) (pre : List (String × String × String))
    (g : String × String × String) (rest : List (String × String × String))
    (hl : e.tle_lookup catnum = some filename)
    (hf : e.fileContents filename = some (pre ++ g :: rest))
    (hpre : ∀ g' ∈ pre, e.parseCatnr (extractCat g'.2.1) ≠ catnum)
    (hg : e.parseCatnr (extractCat g.2.1) = catnum)
    (hv : (e.get_next_tle_set g s.tle).1 ≠ 1) :
    sat_data_read e catnum s
      = (2, { s with tle := (e.get_next_tle_set g s.tle).2 }, []) := by
  unfold sat_data_read
  rw [hl]
  dsimp only
  rw [hf]
  exact readLoop_found_invalid e catnum s pre g rest hpre hg hv

/-- Claim C8 witness: at a concrete input whose single group matches and
fails validation with code 0, sat_data_read returns 2 and only the
element-set slot of the state changes. -/
theorem claim_c8_witness :
    sat_data_read env8 1 sat0
      = (2, { sat0 with tle := (env8.get_next_tle_set group0 sat0.tle).2 }, []) :=
  claim_c8_invalid_record_frame env8 1 sat0 "amateur.tle" [] group0 []
    rfl rfl (by simp) rfl (by decide)

/-- Claim C9: when the lookup names a file and the file opens but no group
in it carries the requested catalog number, sat_data_read reaches the end
of the file, leaves the state unmodified, and returns 0 — the success
code — rather than the not-found code 1. -/
theorem claim_c9_not_in_file_returns_zero (e : Env) (catnum : Int) (s : Sat)
    (filename : String) (gs : List (String × String × String))
    (hl : e.tle_lookup catnum = some filename)
    (hf : e.fileContents filename = some gs)
    (hnone : ∀ g ∈ gs, e.parseCatnr (extractCat g.2.1) ≠ catnum) :
    sat_data_read e catnum s = (0, s, []) := by
  unfold sat_data_read
  rw [hl]
  dsimp only
  rw [hf]
  exact readLoop_no_match e catnum s gs hnone

/-- Claim C9 witness: with the single group parsing to catalog number 2
and request 1, sat_data_read returns 0 with the state unchanged. -/
theorem claim_c9_witness : sat_data_read env9 1 sat0 = (0, sat0, []) :=
  claim_c9_not_in_file_returns_zero env9 1 sat0 "amateur.tle" [group0]
    rfl rfl (by decide)

/-- Claim C10: sat_data_init called without an observer behaves exactly as
if called with a geodetic observer at latitude 0, longitude 0, altitude 0:
the full topocentric computation runs against that dummy observer and the
resulting azimuth, elevation, range and range-rate are stored exactly as
for a real observer. -/
theorem claim_c10_null_qth_is_zero_observer (e : Env) (s : Sat) :
    sat_data_init e s none
      = sat_data_init e s (some { lat := 0, lon := 0, alt := 0 }) :=
  sat_data_init_qth_zero e s

end SatData
